import Mathlib

/-
Verification of the scrape orchestrator and property decoder of the
smartmeter-exporter repository (src/main.go).

The repository file contains two variants of the same program: a log-based
variant (lines 1 to 307) and a slog-based variant (lines 308 to 674).  The
definitions below are a shallow embedding of the slog-based variant; the
V1-suffixed definitions embed the log-based variant for the equivalence claim.

Modelling conventions:
 - a Go byte slice is a list of values of type Fin 256;
 - binary.BigEndian.Uint32 and Uint16 as well as Go slice expressions return
   Option values, where none models the runtime panic (index out of range /
   slice bounds out of range) that an unrecovered goroutine panic turns into
   a process abort;
 - the device client (GetNeibourIP, Authenticate, QueryEchonetLite) is an
   oracle record holding the results the device would give in one cycle;
 - prometheus gauges, counters and the histogram are fields of a Metrics
   record; gauge values are rationals, standing for the exact float64 values
   computed by the Go code (all values produced here, an unsigned 32-bit
   integer and unsigned 16-bit integers divided by 10.0, determine the same
   abstract numbers);
 - time.Sleep calls and the device calls are recorded in an event trace so
   that ordering claims can be stated;
 - logging is not modelled.
-/

namespace Smartmeter

/-- Go byte. -/
abbrev Byte := Fin 256

/-- One ECHONET Lite property of a response frame: identifier and raw bytes. -/
structure Property where
  EPC : Nat
  EDT : List Byte
deriving DecidableEq

/-- Response frame as consumed by parseAndSetMetrics: its property list. -/
structure Frame where
  Properties : List Property
deriving DecidableEq

/-- ECHONET Lite identifier of the instantaneous electric power property
(go-smartmeter library constant; only its distinctness from the current
identifier matters here). -/
def LvSmartElectricEnergyMeter_InstantaneousElectricPower : Nat := 0xE7

/-- ECHONET Lite identifier of the instantaneous current property. -/
def LvSmartElectricEnergyMeter_InstantaneousCurrent : Nat := 0xE8

/-- Models binary.BigEndian.Uint32: big-endian value of the first four bytes;
none models the index-out-of-range panic on a slice shorter than four bytes. -/
def bigEndianUint32 : List Byte → Option Nat
  | b0 :: b1 :: b2 :: b3 :: _ =>
      some (b0.val * 2 ^ 24 + b1.val * 2 ^ 16 + b2.val * 2 ^ 8 + b3.val)
  | _ => none

/-- Models binary.BigEndian.Uint16: big-endian value of the first two bytes;
none models the index-out-of-range panic on a slice shorter than two bytes. -/
def bigEndianUint16 : List Byte → Option Nat
  | b0 :: b1 :: _ => some (b0.val * 2 ^ 8 + b1.val)
  | _ => none

/-- Models the Go slice expression b[:h] (cap taken equal to len); none models
the slice-bounds panic. -/
def goSliceTo (b : List Byte) (h : Nat) : Option (List Byte) :=
  if h ≤ b.length then some (b.take h) else none

/-- Models the Go slice expression b[l:]; none models the slice-bounds panic. -/
def goSliceFrom (b : List Byte) (l : Nat) : Option (List Byte) :=
  if l ≤ b.length then some (b.drop l) else none

/-- Prometheus metric state touched by the program: the three gauge values
(absent until first set), the last-success timestamp gauge, the four error
counters of smartmeter_scrape_errors_total, and the list of observations of
the scrape-duration histogram. -/
structure Metrics where
  power : Option ℚ
  currentR : Option ℚ
  currentT : Option ℚ
  lastSuccess : Option Nat
  errIPResolve : Nat
  errAuth : Nat
  errQuery : Nat
  errParse : Nat
  durations : List ℚ
deriving DecidableEq

/-- Metric state at process start: gauges unset, counters zero. -/
def metrics0 : Metrics :=
  { power := none, currentR := none, currentT := none, lastSuccess := none,
    errIPResolve := 0, errAuth := 0, errQuery := 0, errParse := 0,
    durations := [] }

/-- One iteration of the property loop of parseAndSetMetrics
(src/main.go lines 603 to 616 of the slog variant).  The accumulator carries
the metric state and the foundData flag; none records that a panic occurred
in an earlier iteration (or in this one). -/
def parseStep (acc : Option (Metrics × Bool)) (p : Property) :
    Option (Metrics × Bool) :=
  match acc with
  | none => none
  | some (m, foundData) =>
    if p.EPC = LvSmartElectricEnergyMeter_InstantaneousElectricPower then
      match bigEndianUint32 p.EDT with
      | none => none
      | some v => some ({ m with power := some ((v : ℚ)) }, true)
    else if p.EPC = LvSmartElectricEnergyMeter_InstantaneousCurrent then
      match (goSliceTo p.EDT 2).bind bigEndianUint16,
            (goSliceFrom p.EDT 2).bind bigEndianUint16 with
      | some rv, some tv =>
          some ({ m with currentR := some ((rv : ℚ) / 10),
                         currentT := some ((tv : ℚ) / 10) }, true)
      | _, _ => none
    else some (m, foundData)

/-- Models parseAndSetMetrics of the slog variant (src/main.go lines 601 to
625).  Returns the updated metric state together with the foundData flag;
none models a runtime panic.  The now argument is the value time.Now().Unix()
would give. -/
def parseAndSetMetrics (now : Nat) (response : Frame) (m : Metrics) :
    Option (Metrics × Bool) :=
  match response.Properties.foldl parseStep (some (m, false)) with
  | none => none
  | some (m1, foundData) =>
    if foundData then
      some ({ m1 with lastSuccess := some now }, true)
    else
      some ({ m1 with errParse := m1.errParse + 1 }, false)

/-- Device session state: the cached device address field of the smartmeter
Device handle (dev.IPAddr), empty string when not yet resolved. -/
structure Session where
  IPAddr : String
deriving DecidableEq

/-- Results the external device client would deliver during one scrape cycle:
the GetNeibourIP result, the result of the first QueryEchonetLite call, the
success of Authenticate, and the result of the retried QueryEchonetLite call.
Each query result already accounts for the internal Retry(3) attempts of the
device client. -/
structure Oracle where
  resolveIP : Option String
  query1 : Option Frame
  authOk : Bool
  query2 : Option Frame

/-- Outcome of one scrape cycle, following the taxonomy of the spec.  The Go
code has no explicit outcome value; the outcome is read off from which
terminal branch of scrape ran. -/
inductive Outcome
  | Success
  | IPResolveFailure
  | AuthFailure
  | QueryFailure
  | ParseFailure
deriving DecidableEq

/-- Externally visible steps of one scrape cycle, in execution order: device
calls and the two time.Sleep calls (argument in seconds). -/
inductive Event
  | resolveIP
  | queryAttempt
  | sleep (seconds : Nat)
  | authenticate
deriving DecidableEq

/-- Value of the reAuthCooldown constant in seconds (src/main.go line 370). -/
def reAuthCooldown : Nat := 5

/-- Value of the postAuthCooldown constant in seconds (src/main.go line 371). -/
def postAuthCooldown : Nat := 2

/-- Models the deferred scrapeDuration.Observe call of scrape. -/
def observeDuration (dur : ℚ) (m : Metrics) : Metrics :=
  { m with durations := m.durations ++ [dur] }

/-- Decoding tail of scrape (src/main.go line 598): hand the successful
response to parseAndSetMetrics; none propagates a decode panic. -/
def scrapeDecode (resp : Frame) (now : Nat) (dur : ℚ) (s : Session)
    (m : Metrics) (evs : List Event) :
    Option (Session × Metrics × Outcome × List Event) :=
  match parseAndSetMetrics now resp m with
  | none => none
  | some (m1, foundData) =>
      some (s, observeDuration dur m1,
            if foundData then Outcome.Success else Outcome.ParseFailure, evs)

/-- Query, recovery and decode part of scrape (src/main.go lines 573 to 598),
entered once the device address is known.  The evs argument is the trace of
the steps already taken this cycle. -/
def scrapeQuery (o : Oracle) (now : Nat) (dur : ℚ) (s : Session) (m : Metrics)
    (evs : List Event) : Option (Session × Metrics × Outcome × List Event) :=
  match o.query1 with
  | some resp => scrapeDecode resp now dur s m (evs ++ [Event.queryAttempt])
  | none =>
    if o.authOk then
      match o.query2 with
      | some resp =>
          scrapeDecode resp now dur s m
            (evs ++ [Event.queryAttempt, Event.sleep reAuthCooldown,
                     Event.authenticate, Event.sleep postAuthCooldown,
                     Event.queryAttempt])
      | none =>
          some (s, observeDuration dur { m with errQuery := m.errQuery + 1 },
                Outcome.QueryFailure,
                evs ++ [Event.queryAttempt, Event.sleep reAuthCooldown,
                        Event.authenticate, Event.sleep postAuthCooldown,
                        Event.queryAttempt])
    else
      some (s, observeDuration dur { m with errAuth := m.errAuth + 1 },
            Outcome.AuthFailure,
            evs ++ [Event.queryAttempt, Event.sleep reAuthCooldown,
                    Event.authenticate])

/-- Models one call of scrape of the slog variant (src/main.go lines 543 to
599): resolve the address when unknown, query with the re-authentication
recovery policy, decode.  Returns the session after the cycle, the metric
state after the cycle (including the deferred duration observation), the
outcome and the event trace; none models a process-aborting panic (the
deferred duration observation still runs in Go before the abort, but no state
after an abort is observable, so it is dropped here). -/
def scrape (o : Oracle) (now : Nat) (dur : ℚ) (s : Session) (m : Metrics) :
    Option (Session × Metrics × Outcome × List Event) :=
  if s.IPAddr = "" then
    match o.resolveIP with
    | none =>
        some (s,
              observeDuration dur { m with errIPResolve := m.errIPResolve + 1 },
              Outcome.IPResolveFailure, [Event.resolveIP])
    | some ip => scrapeQuery o now dur { IPAddr := ip } m [Event.resolveIP]
  else
    scrapeQuery o now dur s m []

/-- One iteration of the property loop of parseAndSetMetrics of the log-based
variant (src/main.go lines 278 to 291).  The loop body is character-identical
to the slog variant apart from logging, which is not modelled. -/
def parseStepV1 (acc : Option (Metrics × Bool)) (p : Property) :
    Option (Metrics × Bool) :=
  match acc with
  | none => none
  | some (m, foundData) =>
    if p.EPC = LvSmartElectricEnergyMeter_InstantaneousElectricPower then
      match bigEndianUint32 p.EDT with
      | none => none
      | some v => some ({ m with power := some ((v : ℚ)) }, true)
    else if p.EPC = LvSmartElectricEnergyMeter_InstantaneousCurrent then
      match (goSliceTo p.EDT 2).bind bigEndianUint16,
            (goSliceFrom p.EDT 2).bind bigEndianUint16 with
      | some rv, some tv =>
          some ({ m with currentR := some ((rv : ℚ) / 10),
                         currentT := some ((tv : ℚ) / 10) }, true)
      | _, _ => none
    else some (m, foundData)

/-- Models parseAndSetMetrics of the log-based variant (src/main.go lines 276
to 300). -/
def parseAndSetMetricsV1 (now : Nat) (response : Frame) (m : Metrics) :
    Option (Metrics × Bool) :=
  match response.Properties.foldl parseStepV1 (some (m, false)) with
  | none => none
  | some (m1, foundData) =>
    if foundData then
      some ({ m1 with lastSuccess := some now }, true)
    else
      some ({ m1 with errParse := m1.errParse + 1 }, false)

/-- Decoding tail of the log-based scrape (src/main.go line 273). -/
def scrapeDecodeV1 (resp : Frame) (now : Nat) (dur : ℚ) (s : Session)
    (m : Metrics) (evs : List Event) :
    Option (Session × Metrics × Outcome × List Event) :=
  match parseAndSetMetricsV1 now resp m with
  | none => none
  | some (m1, foundData) =>
      some (s, observeDuration dur m1,
            if foundData then Outcome.Success else Outcome.ParseFailure, evs)

/-- Query, recovery and decode part of the log-based scrape (src/main.go
lines 246 to 273). -/
def scrapeQueryV1 (o : Oracle) (now : Nat) (dur : ℚ) (s : Session)
    (m : Metrics) (evs : List Event) :
    Option (Session × Metrics × Outcome × List Event) :=
  match o.query1 with
  | some resp => scrapeDecodeV1 resp now dur s m (evs ++ [Event.queryAttempt])
  | none =>
    if o.authOk then
      match o.query2 with
      | some resp =>
          scrapeDecodeV1 resp now dur s m
            (evs ++ [Event.queryAttempt, Event.sleep reAuthCooldown,
                     Event.authenticate, Event.sleep postAuthCooldown,
                     Event.queryAttempt])
      | none =>
          some (s, observeDuration dur { m with errQuery := m.errQuery + 1 },
                Outcome.QueryFailure,
                evs ++ [Event.queryAttempt, Event.sleep reAuthCooldown,
                        Event.authenticate, Event.sleep postAuthCooldown,
                        Event.queryAttempt])
    else
      some (s, observeDuration dur { m with errAuth := m.errAuth + 1 },
            Outcome.AuthFailure,
            evs ++ [Event.queryAttempt, Event.sleep reAuthCooldown,
                    Event.authenticate])

/-- Models one call of scrape of the log-based variant (src/main.go lines 216
to 274); same shape as the slog variant, logging aside. -/
def scrapeV1 (o : Oracle) (now : Nat) (dur : ℚ) (s : Session) (m : Metrics) :
    Option (Session × Metrics × Outcome × List Event) :=
  if s.IPAddr = "" then
    match o.resolveIP with
    | none =>
        some (s,
              observeDuration dur { m with errIPResolve := m.errIPResolve + 1 },
              Outcome.IPResolveFailure, [Event.resolveIP])
    | some ip => scrapeQueryV1 o now dur { IPAddr := ip } m [Event.resolveIP]
  else
    scrapeQueryV1 o now dur s m []

/-- Decimal value of one character when it is a digit. -/
def digitVal (c : Char) : Option Nat :=
  if 48 ≤ c.toNat ∧ c.toNat ≤ 57 then some (c.toNat - 48) else none

/-- Decimal value of a character list; none when the list is empty or holds a
non-digit character. -/
def parseDigits (cs : List Char) : Option Nat :=
  cs.foldl
    (fun acc c =>
      match acc, digitVal c with
      | some n, some d => some (n * 10 + d)
      | _, _ => none)
    (if cs.isEmpty then none else some 0)

/-- Models strconv.Atoi on a 64-bit platform: an optional sign followed by
decimal digits; none on an empty string, on a stray character, and on values
outside the int64 range (Go then returns a non-nil error, which is all the
caller inspects). -/
def atoi (s : String) : Option Int :=
  let signed : Bool × List Char :=
    match s.toList with
    | '-' :: rest => (true, rest)
    | '+' :: rest => (false, rest)
    | cs => (false, cs)
  match parseDigits signed.2 with
  | none => none
  | some n =>
    let v : Int := if signed.1 then -(n : Int) else (n : Int)
    if v < -(2 ^ 63) ∨ (2 ^ 63 - 1 : Int) < v then none else some v

/-- Models the interval validation in main (src/main.go lines 432 to 442 of
the slog variant): the configured string is parsed with strconv.Atoi and the
result is replaced by the default 60 when parsing failed or the value is
below 10.  This is the value of the intervalSec variable after validation;
the loop period is derived from it by the wrapping int64 nanosecond
conversion modelled by intervalDurationNs below. -/
def effectiveIntervalSec (intervalStr : String) : Nat :=
  match atoi intervalStr with
  | none => 60
  | some n => if n < 10 then 60 else n.toNat

/-- Two-complement wrap-around of a mathematical integer into the int64
range, the overflow behaviour of Go signed integer arithmetic. -/
def wrapInt64 (n : Int) : Int :=
  (n + 2 ^ 63) % 2 ^ 64 - 2 ^ 63

/-- Models the expression time.Duration(intervalSec) * time.Second at the
runScrapeLoop call site (src/main.go line 474 of the slog variant): the
validated seconds value is multiplied by one billion in int64 nanosecond
arithmetic, which wraps on overflow. -/
def intervalDurationNs (intervalStr : String) : Int :=
  wrapInt64 ((effectiveIntervalSec intervalStr : Int) * 1000000000)

/-- Models the period with which time.NewTicker drives the scheduler loop
(src/main.go lines 519 to 539): the interval duration in nanoseconds, or
none when the duration is not positive, in which case NewTicker panics and
the unrecovered panic in the scrape goroutine aborts the process. -/
def runScrapeLoopPeriod (intervalStr : String) : Option Int :=
  let d := intervalDurationNs intervalStr
  if d ≤ 0 then none else some d

/-- Declared initial value of the useDSE variable (src/main.go line 393). -/
def useDSEInit : Bool := false

/-- Models the SMARTMETER_DSE environment handling (src/main.go lines 397 to
399), run before flag registration and flag parsing.  The argument is the
value os.Getenv returns, which is the empty string when the variable is
unset. -/
def useDSEAfterEnv (v : String) : Bool :=
  if v ≠ "false" ∧ v ≠ "0" then true else useDSEInit

/-- Effective value of the dual-stack mode after flag parsing: flag.BoolVar
registers useDSEAfterEnv as the default, so the flag value applies only when
the -dse flag was given on the command line. -/
def useDSEEffective (v : String) (dseFlag : Option Bool) : Bool :=
  dseFlag.getD (useDSEAfterEnv v)

/-- Sum of the four error counters, used to state that a terminal branch
increments exactly one of them. -/
def errTotal (m : Metrics) : Nat :=
  m.errIPResolve + m.errAuth + m.errQuery + m.errParse

/-- The property identifiers the decoder switch recognizes. -/
def isRecognizedEPC (e : Nat) : Bool :=
  e = LvSmartElectricEnergyMeter_InstantaneousElectricPower ∨
  e = LvSmartElectricEnergyMeter_InstantaneousCurrent

/-- A frame whose recognized properties all carry at least four raw bytes,
which is what the decode expressions of parseAndSetMetrics require to avoid
an index-out-of-range panic. -/
def wellFormedFrame (f : Frame) : Prop :=
  ∀ p ∈ f.Properties, isRecognizedEPC p.EPC = true → 4 ≤ p.EDT.length

/-- States of a scrape result: the cycle did not abort, and the total error
count moved by one exactly when the outcome is not Success. -/
def countsExactlyOnce (base : Nat) :
    Option (Session × Metrics × Outcome × List Event) → Prop
  | none => False
  | some (_, m1, out, _) =>
      errTotal m1 = base + (if out = Outcome.Success then 0 else 1)

/-- Oracle of a cycle where every device interaction fails. -/
def oracleAllFail : Oracle :=
  { resolveIP := none, query1 := none, authOk := false, query2 := none }

/-- Oracle of a cycle where both queries fail but re-authentication works. -/
def oracleQueryFail : Oracle :=
  { resolveIP := none, query1 := none, authOk := true, query2 := none }

/-- Response frame holding one recognized property with an empty byte string,
shorter than the four bytes the power decode expression reads. -/
def shortPowerFrame : Frame :=
  { Properties := [{ EPC := LvSmartElectricEnergyMeter_InstantaneousElectricPower,
                     EDT := [] }] }

/-- Oracle whose first query yields the malformed short-byte response. -/
def oracleShortPower : Oracle :=
  { resolveIP := none, query1 := some shortPowerFrame, authOk := false,
    query2 := none }

/-- Response frame holding only a property the decoder does not recognize. -/
def unrecognizedFrame : Frame :=
  { Properties := [{ EPC := 0x80, EDT := [] }] }

/-- Oracle whose first query yields the unrecognized-only response. -/
def oracleUnrecognized : Oracle :=
  { resolveIP := none, query1 := some unrecognizedFrame, authOk := false,
    query2 := none }

end Smartmeter

namespace Smartmeter

/-- C2: decoding a response property carrying the instantaneous-power
identifier with four raw bytes sets the power reading to exactly the 4-byte
big-endian unsigned integer of those bytes, with no scaling; a response
holding just that property furthermore records the success timestamp. -/
theorem power_decoded_exactly (b0 b1 b2 b3 : Byte) (now : Nat) (m : Metrics)
    (foundData : Bool) :
    parseStep (some (m, foundData))
        { EPC := LvSmartElectricEnergyMeter_InstantaneousElectricPower,
          EDT := [b0, b1, b2, b3] } =
      some ({ m with power := some ((b0.val * 2 ^ 24 + b1.val * 2 ^ 16 + b2.val * 2 ^ 8 + b3.val : Nat) : ℚ) },
        true) ∧
    parseAndSetMetrics now
        { Properties :=
            [{ EPC := LvSmartElectricEnergyMeter_InstantaneousElectricPower,
               EDT := [b0, b1, b2, b3] }] } m =
      some ({ m with power := some ((b0.val * 2 ^ 24 + b1.val * 2 ^ 16 + b2.val * 2 ^ 8 + b3.val : Nat) : ℚ),
                     lastSuccess := some now }, true) :=
  ⟨rfl, rfl⟩

/-- C3: decoding a response property carrying the instantaneous-current
identifier with four raw bytes sets the phase-r reading to the big-endian
16-bit value of the first two bytes divided by 10 and the phase-t reading to
the big-endian 16-bit value of the last two bytes divided by 10. -/
theorem current_decoded_exactly (b0 b1 b2 b3 : Byte) (now : Nat) (m : Metrics)
    (foundData : Bool) :
    parseStep (some (m, foundData))
        { EPC := LvSmartElectricEnergyMeter_InstantaneousCurrent,
          EDT := [b0, b1, b2, b3] } =
      some ({ m with
          currentR := some (((b0.val * 2 ^ 8 + b1.val : Nat) : ℚ) / 10),
          currentT := some (((b2.val * 2 ^ 8 + b3.val : Nat) : ℚ) / 10) },
        true) ∧
    parseAndSetMetrics now
        { Properties :=
            [{ EPC := LvSmartElectricEnergyMeter_InstantaneousCurrent,
               EDT := [b0, b1, b2, b3] }] } m =
      some ({ m with
          currentR := some (((b0.val * 2 ^ 8 + b1.val : Nat) : ℚ) / 10),
          currentT := some (((b2.val * 2 ^ 8 + b3.val : Nat) : ℚ) / 10),
          lastSuccess := some now }, true) :=
  ⟨rfl, rfl⟩

/-- C5: when the session holds no device address and address resolution
fails, the cycle ends at once with outcome IPResolveFailure: only the
ip_resolve counter moves, the session is unchanged, and the trace holds the
failed resolution and nothing else, so no query was attempted. -/
theorem resolve_failure_ends_cycle (o : Oracle) (now : Nat) (dur : ℚ)
    (s : Session) (m : Metrics) (hip : s.IPAddr = "")
    (hres : o.resolveIP = none) :
    scrape o now dur s m =
      some (s, observeDuration dur { m with errIPResolve := m.errIPResolve + 1 },
            Outcome.IPResolveFailure, [Event.resolveIP]) := by
  simp [scrape, hip, hres]

/-- Witness for the C5 theorem on a concrete failing cycle. -/
theorem resolve_failure_witness :
    scrape oracleAllFail 0 0 { IPAddr := "" } metrics0 =
      some ({ IPAddr := "" },
            observeDuration 0
              { metrics0 with errIPResolve := metrics0.errIPResolve + 1 },
            Outcome.IPResolveFailure, [Event.resolveIP]) :=
  resolve_failure_ends_cycle oracleAllFail 0 0 { IPAddr := "" } metrics0 rfl rfl

/-- C6: when the primary query fails, re-authentication succeeds and the
retried query also fails, the outcome is QueryFailure, only the query
counter moves, exactly two query attempts appear in the trace (the identical
query is reissued exactly once), and the 5-second cooldown precedes the
authentication, which precedes the 2-second cooldown, which precedes the
retry. -/
theorem query_retry_failure (o : Oracle) (now : Nat) (dur : ℚ) (s : Session)
    (m : Metrics) (hq1 : o.query1 = none) (ha : o.authOk = true)
    (hq2 : o.query2 = none) (hres : s.IPAddr = "" → o.resolveIP.isSome) :
    scrape o now dur s m =
      some ({ IPAddr := if s.IPAddr = "" then o.resolveIP.getD "" else s.IPAddr },
            observeDuration dur { m with errQuery := m.errQuery + 1 },
            Outcome.QueryFailure,
            (if s.IPAddr = "" then [Event.resolveIP] else []) ++
              [Event.queryAttempt, Event.sleep reAuthCooldown,
               Event.authenticate, Event.sleep postAuthCooldown,
               Event.queryAttempt]) := by
  by_cases hip : s.IPAddr = ""
  · obtain ⟨ip, hipres⟩ := Option.isSome_iff_exists.mp (hres hip)
    simp [scrape, hip, hipres, scrapeQuery, hq1, ha, hq2]
  · simp [scrape, hip, scrapeQuery, hq1, ha, hq2]

/-- Witness for the C6 theorem on a concrete cycle with a cached address. -/
theorem query_retry_failure_witness :
    scrape oracleQueryFail 3 1 { IPAddr := "a" } metrics0 =
      some ({ IPAddr := "a" },
            observeDuration 1 { metrics0 with errQuery := metrics0.errQuery + 1 },
            Outcome.QueryFailure,
            [Event.queryAttempt, Event.sleep reAuthCooldown,
             Event.authenticate, Event.sleep postAuthCooldown,
             Event.queryAttempt]) :=
  query_retry_failure oracleQueryFail 3 1 { IPAddr := "a" } metrics0 rfl rfl rfl
    (by intro h; simp at h)

lemma effectiveIntervalSec_ge_ten (intervalStr : String) :
    10 ≤ effectiveIntervalSec intervalStr := by
  unfold effectiveIntervalSec
  cases h : atoi intervalStr with
  | none => norm_num
  | some n =>
    by_cases hn : n < 10
    · simp [hn]
    · simp [hn]
      omega

lemma wrapInt64_eq_self (n : Int) (h1 : -(2 ^ 63) ≤ n) (h2 : n < 2 ^ 63) :
    wrapInt64 n = n := by
  unfold wrapInt64
  omega

/-- C8 counterexample: the configured poll-interval value 18446744074 passes
the validation (it is numeric and at least 10), yet the int64 nanosecond
conversion wraps and the scheduler loop period becomes 290448384
nanoseconds, about 0.29 seconds, far below 10 seconds; the value 9300000000
wraps to a negative duration, on which NewTicker panics and the process
aborts.  So the effective period is not at least 10 seconds for every
configured value. -/
theorem interval_period_wraps :
    effectiveIntervalSec "18446744074" = 18446744074 ∧
    intervalDurationNs "18446744074" = 290448384 ∧
    intervalDurationNs "18446744074" < 10 * 1000000000 ∧
    effectiveIntervalSec "9300000000" = 9300000000 ∧
    runScrapeLoopPeriod "9300000000" = none := by
  refine ⟨by decide, by decide, by decide, by decide, by decide⟩

/-- C8 amended: for every configured poll-interval value, the validated
interval seconds value is at least 10; and whenever that value is at most
9223372036, so that the int64 nanosecond conversion at the runScrapeLoop
call site cannot overflow, the scheduler loop period is a positive duration
of at least 10 seconds.  Beyond that bound the conversion wraps and the
minimum no longer holds. -/
theorem interval_at_least_ten_without_overflow (intervalStr : String)
    (h : effectiveIntervalSec intervalStr ≤ 9223372036) :
    10 ≤ effectiveIntervalSec intervalStr ∧
    10 * 1000000000 ≤ intervalDurationNs intervalStr ∧
    runScrapeLoopPeriod intervalStr = some (intervalDurationNs intervalStr) := by
  have hk10 : 10 ≤ effectiveIntervalSec intervalStr :=
    effectiveIntervalSec_ge_ten intervalStr
  have hw : intervalDurationNs intervalStr =
      (effectiveIntervalSec intervalStr : Int) * 1000000000 := by
    unfold intervalDurationNs
    apply wrapInt64_eq_self
    · have : (0 : Int) ≤ (effectiveIntervalSec intervalStr : Int) * 1000000000 := by
        positivity
      omega
    · have : (effectiveIntervalSec intervalStr : Int) ≤ 9223372036 := by
        exact_mod_cast h
      nlinarith
  refine ⟨hk10, ?_, ?_⟩
  · rw [hw]
    have : (10 : Int) ≤ (effectiveIntervalSec intervalStr : Int) := by
      exact_mod_cast hk10
    nlinarith
  · unfold runScrapeLoopPeriod
    rw [if_neg]
    rw [hw]
    have : (10 : Int) ≤ (effectiveIntervalSec intervalStr : Int) := by
      exact_mod_cast hk10
    nlinarith

/-- Witness for the C8 amended theorem at the default configured value. -/
theorem interval_without_overflow_witness :
    10 ≤ effectiveIntervalSec "60" ∧
    10 * 1000000000 ≤ intervalDurationNs "60" ∧
    runScrapeLoopPeriod "60" = some (intervalDurationNs "60") :=
  interval_at_least_ten_without_overflow "60" (by decide)

/-- C9: the log-based and the slog-based source variants have equal scrape
and parseAndSetMetrics behaviour: same session mutation, same metric updates
and same outcome on every input, in this embedding, which abstracts logging
(the only point at which the two variants differ). -/
theorem variants_equivalent :
    scrapeV1 = scrape ∧ parseAndSetMetricsV1 = parseAndSetMetrics :=
  ⟨rfl, rfl⟩

/-- C10: with SMARTMETER_DSE unset (os.Getenv then gives the empty string)
or set to any value other than the exact strings false and 0, dual-stack
mode is enabled before flag parsing; hence with the variable absent and no
-dse flag the effective default is enabled, despite the declared initial
value false. -/
theorem dse_default_enabled (v : String) (hf : v ≠ "false") (h0 : v ≠ "0") :
    useDSEAfterEnv v = true ∧ useDSEAfterEnv "" = true ∧
    useDSEEffective "" none = true ∧ useDSEInit = false := by
  refine ⟨?_, by decide, by decide, rfl⟩
  simp [useDSEAfterEnv, hf, h0]

/-- Witness for the C10 theorem at the concrete value 1. -/
theorem dse_default_enabled_witness :
    useDSEAfterEnv "1" = true ∧ useDSEAfterEnv "" = true ∧
    useDSEEffective "" none = true ∧ useDSEInit = false :=
  dse_default_enabled "1" (by decide) (by decide)

lemma parseFold_unrecognized (props : List Property) (m : Metrics)
    (found : Bool) (h : ∀ p ∈ props, isRecognizedEPC p.EPC = false) :
    props.foldl parseStep (some (m, found)) = some (m, found) := by
  induction props with
  | nil => rfl
  | cons p ps ih =>
    have hp := h p (List.mem_cons_self p ps)
    have hpow : ¬ p.EPC = LvSmartElectricEnergyMeter_InstantaneousElectricPower := by
      intro hc
      simp [isRecognizedEPC, hc] at hp
    have hcur : ¬ p.EPC = LvSmartElectricEnergyMeter_InstantaneousCurrent := by
      intro hc
      simp [isRecognizedEPC, hc] at hp
    have hstep : parseStep (some (m, found)) p = some (m, found) := by
      simp [parseStep, hpow, hcur]
    rw [List.foldl_cons, hstep]
    exact ih (fun q hq => h q (List.mem_cons_of_mem p hq))

/-- C4: for every response in which the decoder recognizes zero properties,
no matter how many unrecognized properties it holds, the parse error counter
is incremented, no reading gauge and no timestamp is touched, and the cycle
outcome is ParseFailure. -/
theorem zero_recognized_parse_failure (now : Nat) (resp : Frame) (m : Metrics)
    (o : Oracle) (dur : ℚ) (s : Session)
    (h : ∀ p ∈ resp.Properties, isRecognizedEPC p.EPC = false)
    (hip : s.IPAddr ≠ "") (hq1 : o.query1 = some resp) :
    parseAndSetMetrics now resp m =
      some ({ m with errParse := m.errParse + 1 }, false) ∧
    scrape o now dur s m =
      some (s, observeDuration dur { m with errParse := m.errParse + 1 },
            Outcome.ParseFailure, [Event.queryAttempt]) := by
  have hparse : parseAndSetMetrics now resp m =
      some ({ m with errParse := m.errParse + 1 }, false) := by
    unfold parseAndSetMetrics
    rw [parseFold_unrecognized resp.Properties m false h]
    rfl
  refine ⟨hparse, ?_⟩
  simp [scrape, hip, scrapeQuery, hq1, scrapeDecode, hparse]

/-- Witness for the C4 theorem on a concrete unrecognized-only response. -/
theorem zero_recognized_witness :
    parseAndSetMetrics 0 unrecognizedFrame metrics0 =
      some ({ metrics0 with errParse := metrics0.errParse + 1 }, false) ∧
    scrape oracleUnrecognized 0 0 { IPAddr := "a" } metrics0 =
      some ({ IPAddr := "a" },
            observeDuration 0 { metrics0 with errParse := metrics0.errParse + 1 },
            Outcome.ParseFailure, [Event.queryAttempt]) :=
  zero_recognized_parse_failure 0 unrecognizedFrame metrics0 oracleUnrecognized
    0 { IPAddr := "a" } (by decide) (by decide) rfl

lemma scrapeDecode_shape (resp : Frame) (now : Nat) (dur : ℚ) (s : Session)
    (m : Metrics) (evs : List Event) (s1 : Session) (m1 : Metrics)
    (out : Outcome) (evs1 : List Event)
    (hrun : scrapeDecode resp now dur s m evs = some (s1, m1, out, evs1)) :
    s1 = s ∧ evs1 = evs := by
  unfold scrapeDecode at hrun
  cases hp : parseAndSetMetrics now resp m with
  | none => rw [hp] at hrun; cases hrun
  | some r =>
    rw [hp] at hrun
    simp only [Option.some.injEq, Prod.mk.injEq] at hrun
    exact ⟨hrun.1.symm, hrun.2.2.2.symm⟩

lemma scrapeQuery_shape (o : Oracle) (now : Nat) (dur : ℚ) (s : Session)
    (m : Metrics) (evs : List Event) (s1 : Session) (m1 : Metrics)
    (out : Outcome) (evs1 : List Event)
    (hrun : scrapeQuery o now dur s m evs = some (s1, m1, out, evs1)) :
    s1 = s ∧ ∃ t, evs1 = evs ++ t ∧ Event.resolveIP ∉ t ∧
      t.head? = some Event.queryAttempt := by
  unfold scrapeQuery at hrun
  cases hq : o.query1 with
  | some resp =>
    rw [hq] at hrun
    obtain ⟨hs, he⟩ := scrapeDecode_shape resp now dur s m _ s1 m1 out evs1 hrun
    exact ⟨hs, [Event.queryAttempt], he, by decide, rfl⟩
  | none =>
    rw [hq] at hrun
    by_cases ha : o.authOk
    · rw [if_pos ha] at hrun
      cases hq2 : o.query2 with
      | some resp =>
        rw [hq2] at hrun
        obtain ⟨hs, he⟩ := scrapeDecode_shape resp now dur s m _ s1 m1 out evs1 hrun
        exact ⟨hs, [Event.queryAttempt, Event.sleep reAuthCooldown,
                    Event.authenticate, Event.sleep postAuthCooldown,
                    Event.queryAttempt], he, by decide, rfl⟩
      | none =>
        rw [hq2] at hrun
        simp only [Option.some.injEq, Prod.mk.injEq] at hrun
        exact ⟨hrun.1.symm, [Event.queryAttempt, Event.sleep reAuthCooldown,
                             Event.authenticate, Event.sleep postAuthCooldown,
                             Event.queryAttempt],
               hrun.2.2.2.symm, by decide, rfl⟩
    · rw [if_neg ha] at hrun
      simp only [Option.some.injEq, Prod.mk.injEq] at hrun
      exact ⟨hrun.1.symm, [Event.queryAttempt, Event.sleep reAuthCooldown,
                           Event.authenticate],
             hrun.2.2.2.symm, by decide, rfl⟩

/-- C7: in every non-aborting cycle, a successful address resolution stores
the resolved address in the session, and a session that already holds an
address is returned unchanged while the trace holds no resolution step and
starts directly at the query step; in particular a failed re-authentication
leaves the cached address in place for the next cycle. -/
theorem address_cached (o : Oracle) (now : Nat) (dur : ℚ) (s : Session)
    (m : Metrics) (s1 : Session) (m1 : Metrics) (out : Outcome)
    (evs : List Event)
    (hrun : scrape o now dur s m = some (s1, m1, out, evs)) :
    (s.IPAddr = "" → o.resolveIP.isSome → o.resolveIP = some s1.IPAddr) ∧
    (s.IPAddr ≠ "" → s1 = s ∧ Event.resolveIP ∉ evs ∧
      evs.head? = some Event.queryAttempt) := by
  constructor
  · intro hip hsome
    obtain ⟨ip, hres⟩ := Option.isSome_iff_exists.mp hsome
    rw [hres]
    unfold scrape at hrun
    rw [if_pos hip, hres] at hrun
    obtain ⟨hs, -⟩ :=
      scrapeQuery_shape o now dur { IPAddr := ip } m _ s1 m1 out evs hrun
    rw [hs]
  · intro hip
    unfold scrape at hrun
    rw [if_neg hip] at hrun
    obtain ⟨hs, t, ht, hnot, hhead⟩ :=
      scrapeQuery_shape o now dur s m [] s1 m1 out evs hrun
    rw [List.nil_append] at ht
    subst ht
    exact ⟨hs, hnot, hhead⟩

lemma errTotal_observeDuration (dur : ℚ) (m : Metrics) :
    errTotal (observeDuration dur m) = errTotal m := rfl

lemma exists_four_cons (l : List Byte) (hl : 4 ≤ l.length) :
    ∃ b0 b1 b2 b3 rest, l = b0 :: b1 :: b2 :: b3 :: rest := by
  cases l with
  | nil => simp only [List.length_nil] at hl; omega
  | cons b0 t0 =>
  cases t0 with
  | nil => simp only [List.length_cons, List.length_nil] at hl; omega
  | cons b1 t1 =>
  cases t1 with
  | nil => simp only [List.length_cons, List.length_nil] at hl; omega
  | cons b2 t2 =>
  cases t2 with
  | nil => simp only [List.length_cons, List.length_nil] at hl; omega
  | cons b3 rest => exact ⟨b0, b1, b2, b3, rest, rfl⟩

lemma parseStep_wf (m : Metrics) (found : Bool) (p : Property)
    (h : isRecognizedEPC p.EPC = true → 4 ≤ p.EDT.length) :
    ∃ m1 found1, parseStep (some (m, found)) p = some (m1, found1) ∧
      m1.errIPResolve = m.errIPResolve ∧ m1.errAuth = m.errAuth ∧
      m1.errQuery = m.errQuery ∧ m1.errParse = m.errParse := by
  have hne : ¬ (LvSmartElectricEnergyMeter_InstantaneousCurrent =
      LvSmartElectricEnergyMeter_InstantaneousElectricPower) := by decide
  by_cases hpow : p.EPC = LvSmartElectricEnergyMeter_InstantaneousElectricPower
  · have hl : 4 ≤ p.EDT.length := h (by simp [isRecognizedEPC, hpow])
    obtain ⟨b0, b1, b2, b3, rest, hEDT⟩ := exists_four_cons p.EDT hl
    refine ⟨{ m with power := some ((b0.val * 2 ^ 24 + b1.val * 2 ^ 16 + b2.val * 2 ^ 8 + b3.val : Nat) : ℚ) },
            true, ?_, rfl, rfl, rfl, rfl⟩
    simp [parseStep, hpow, hEDT, bigEndianUint32]
  · by_cases hcur : p.EPC = LvSmartElectricEnergyMeter_InstantaneousCurrent
    · have hl : 4 ≤ p.EDT.length := h (by simp [isRecognizedEPC, hcur])
      obtain ⟨b0, b1, b2, b3, rest, hEDT⟩ := exists_four_cons p.EDT hl
      have hlen2 : 2 ≤ p.EDT.length := by
        rw [hEDT]
        simp only [List.length_cons]
        omega
      have hto : goSliceTo p.EDT 2 = some [b0, b1] := by
        unfold goSliceTo
        rw [if_pos hlen2, hEDT]
        rfl
      have hfrom : goSliceFrom p.EDT 2 = some (b2 :: b3 :: rest) := by
        unfold goSliceFrom
        rw [if_pos hlen2, hEDT]
        rfl
      refine ⟨{ m with currentR := some (((b0.val * 2 ^ 8 + b1.val : Nat) : ℚ) / 10),
                       currentT := some (((b2.val * 2 ^ 8 + b3.val : Nat) : ℚ) / 10) },
              true, ?_, rfl, rfl, rfl, rfl⟩
      simp [parseStep, hpow, hcur, hne, hto, hfrom, bigEndianUint16]
    · exact ⟨m, found, by simp [parseStep, hpow, hcur], rfl, rfl, rfl, rfl⟩
theorem address_cached_witness :
    ({ IPAddr := "a" } : Session) = { IPAddr := "a" } ∧
    Event.resolveIP ∉ [Event.queryAttempt, Event.sleep reAuthCooldown,
                       Event.authenticate] ∧
    [Event.queryAttempt, Event.sleep reAuthCooldown,
     Event.authenticate].head? = some Event.queryAttempt :=
  (address_cached oracleAllFail 0 0 { IPAddr := "a" } metrics0 { IPAddr := "a" }
      (observeDuration 0 { metrics0 with errAuth := metrics0.errAuth + 1 })
      Outcome.AuthFailure
      [Event.queryAttempt, Event.sleep reAuthCooldown, Event.authenticate]
      rfl).2
    (by decide)

lemma parseFold_wf (props : List Property) (m : Metrics) (found : Bool)
    (h : ∀ p ∈ props, isRecognizedEPC p.EPC = true → 4 ≤ p.EDT.length) :
    ∃ m1 found1, props.foldl parseStep (some (m, found)) = some (m1, found1) ∧
      m1.errIPResolve = m.errIPResolve ∧ m1.errAuth = m.errAuth ∧
      m1.errQuery = m.errQuery ∧ m1.errParse = m.errParse := by
  induction props generalizing m found with
  | nil => exact ⟨m, found, rfl, rfl, rfl, rfl, rfl⟩
  | cons p ps ih =>
    obtain ⟨ma, fa, hstep, e1, e2, e3, e4⟩ :=
      parseStep_wf m found p (h p (List.mem_cons_self p ps))
    obtain ⟨mb, fb, hfold, f1, f2, f3, f4⟩ :=
      ih ma fa (fun q hq => h q (List.mem_cons_of_mem p hq))
    refine ⟨mb, fb, ?_, ?_, ?_, ?_, ?_⟩
    · rw [List.foldl_cons, hstep]
      exact hfold
    all_goals omega

lemma parseAndSetMetrics_wf (now : Nat) (resp : Frame) (m : Metrics)
    (h : wellFormedFrame resp) :
    ∃ m1 found, parseAndSetMetrics now resp m = some (m1, found) ∧
      errTotal m1 = errTotal m + (if found then 0 else 1) := by
  obtain ⟨ma, fa, hfold, e1, e2, e3, e4⟩ := parseFold_wf resp.Properties m false h
  unfold parseAndSetMetrics
  rw [hfold]
  cases fa with
  | true =>
    refine ⟨{ ma with lastSuccess := some now }, true, rfl, ?_⟩
    simp [errTotal]
    omega
  | false =>
    refine ⟨{ ma with errParse := ma.errParse + 1 }, false, rfl, ?_⟩
    simp [errTotal]
    omega

/-- C1 counterexample: a device response whose recognized power property
carries fewer than four raw bytes makes the decode step read past the slice
end; the cycle aborts (an unrecovered panic in the scrape goroutine kills
the process) instead of being absorbed and counted. -/
theorem scrape_aborts_on_short_bytes :
    scrape oracleShortPower 0 0 { IPAddr := "a" } metrics0 = none := rfl

/-- C1 amended: for every scrape cycle in which each recognized property of
any device response carries at least four raw bytes, no branch of the cycle
aborts: the cycle terminates with some outcome and the total failure count
rises by exactly one when the outcome is a failure and by zero on success. -/
theorem failures_absorbed_and_counted (o : Oracle) (now : Nat) (dur : ℚ)
    (s : Session) (m : Metrics)
    (h1 : ∀ f, o.query1 = some f → wellFormedFrame f)
    (h2 : ∀ f, o.query2 = some f → wellFormedFrame f) :
    countsExactlyOnce (errTotal m) (scrape o now dur s m) := by
  have hquery : ∀ s0 evs,
      countsExactlyOnce (errTotal m) (scrapeQuery o now dur s0 m evs) := by
    intro s0 evs
    unfold scrapeQuery
    cases hq1 : o.query1 with
    | some resp =>
      obtain ⟨m1, found, hp, hcount⟩ :=
        parseAndSetMetrics_wf now resp m (h1 resp hq1)
      unfold scrapeDecode
      simp only [hp]
      cases found with
      | true =>
        simp [countsExactlyOnce, errTotal_observeDuration]
        simpa using hcount
      | false =>
        simp [countsExactlyOnce, errTotal_observeDuration]
        simpa using hcount
    | none =>
      by_cases ha : o.authOk
      · rw [if_pos ha]
        cases hq2 : o.query2 with
        | some resp =>
          obtain ⟨m1, found, hp, hcount⟩ :=
            parseAndSetMetrics_wf now resp m (h2 resp hq2)
          unfold scrapeDecode
          simp only [hp]
          cases found with
          | true =>
            simp [countsExactlyOnce, errTotal_observeDuration]
            simpa using hcount
          | false =>
            simp [countsExactlyOnce, errTotal_observeDuration]
            simpa using hcount
        | none =>
          simp [countsExactlyOnce, observeDuration, errTotal]
          omega
      · rw [if_neg ha]
        simp [countsExactlyOnce, observeDuration, errTotal]
        omega
  unfold scrape
  by_cases hip : s.IPAddr = ""
  · rw [if_pos hip]
    cases hres : o.resolveIP with
    | none =>
      simp [countsExactlyOnce, observeDuration, errTotal]
      omega
    | some ip => exact hquery { IPAddr := ip } [Event.resolveIP]
  · rw [if_neg hip]
    exact hquery s []

/-- Witness for the C1 amended theorem on a concrete all-failing cycle. -/
theorem failures_absorbed_witness :
    countsExactlyOnce (errTotal metrics0)
      (scrape oracleAllFail 0 0 { IPAddr := "" } metrics0) :=
  failures_absorbed_and_counted oracleAllFail 0 0 { IPAddr := "" } metrics0
    (fun f hf => by simp [oracleAllFail] at hf)
    (fun f hf => by simp [oracleAllFail] at hf)

end Smartmeter
